import Mathlib

/-!
Shallow embedding of the health-check status-page library: the status data
model (mod.ts), the HTML renderer (generateHTML and its helpers), and the
pure mapping core of the Gridfox adapter (gridfox/index.ts), together with
theorems checking the specification claims about status aggregation,
rendering, and the adapter join.

String templates of the source are embedded as explicit concatenations of
their literal chunks (a JS template literal denotes exactly such a
concatenation); literal braces in the chunks are written with hex escapes,
as are apostrophes.
-/

/-- The closed three-variant status enumerant (Status in mod.ts):
noissue, incident, outage. -/
inductive Status where
  | noissue
  | incident
  | outage
deriving DecidableEq

/-- Severity rank of a status, for the total severity order
noissue < incident < outage used by the spec. -/
def severity : Status → Nat
  | Status.noissue => 0
  | Status.incident => 1
  | Status.outage => 2

/-- Modelled from the spec: the severity maximum of a list of statuses —
outage if any is outage, else incident if any is incident, else
noissue — which is noissue on the empty list (vacuous maximum). -/
def severityMax (l : List Status) : Status :=
  if l.any (· == Status.outage) then Status.outage
  else if l.any (· == Status.incident) then Status.incident
  else Status.noissue

/-- A service: display name plus current status (Service in mod.ts). -/
structure Service where
  name : String
  status : Status
deriving DecidableEq

/-- An environment: display name plus its ordered list of services
(Environment in mod.ts). -/
structure Environment where
  name : String
  services : List Service
deriving DecidableEq

/-- The page configuration (StatusPageConfig in mod.ts); the optional
customCSS field becomes an explicit Option String. -/
structure StatusPageConfig where
  title : String
  logo : String
  currentStatus : Status
  environments : List Environment
  customCSS : Option String := none
deriving DecidableEq

/-- One reading of the wall clock as used by getCurrentTime: the local hour
and minute and the UTC offset in minutes (Date getTimezoneOffset). -/
structure ClockReading where
  hour : Nat
  minute : Nat
  timezoneOffset : Int
deriving DecidableEq

/-- Two-digit zero padding of a numeric time field. -/
def pad2 (n : Nat) : String :=
  if n < 10 then "0" ++ toString n else toString n

/-- Modelled from the spec: the platform call Date toLocaleTimeString with
locale en-GB and numeric hour and minute options, which renders the reading
as zero-padded 24-hour HH:MM. -/
def localeTimeHHMM (d : ClockReading) : String :=
  pad2 d.hour ++ ":" ++ pad2 d.minute

/-- Function getCurrentTime of mod.ts, with the ambient clock made an
explicit parameter: formats the time and appends GMT when the UTC offset is
zero and the fixed label BST otherwise. -/
def getCurrentTime (d : ClockReading) : String :=
  let time := localeTimeHHMM d
  let timezone := if d.timezoneOffset == 0 then "GMT" else "BST"
  time ++ " " ++ timezone

/-- Character-level model of the platform call String startsWith used for
logo detection in generateHTML. -/
def jsStartsWith (s marker : String) : Bool :=
  marker.data.isPrefixOf s.data

/-- Predicate: the first string contains the second as a contiguous
substring. -/
def ContainsStr (hay needle : String) : Prop :=
  ∃ p q, hay = p ++ needle ++ q

/-- SVG icon for each status value (the ICONS record of mod.ts). -/
def ICONS : Status → String
  | Status.noissue => "<svg viewBox=\"0 0 20 20\" fill=\"none\" xmlns=\"http://www.w3.org/2000/svg\"><path fill-rule=\"evenodd\" clip-rule=\"evenodd\" d=\"M10 20C15.5229 20 20 15.5228 20 10C20 4.47715 15.5229 0 10 0C4.47716 0 0 4.47715 0 10C0 15.5228 4.47716 20 10 20ZM6 10L9 13L14 8L13 7L9 11L7 9L6 10Z\" fill=\"#6FBA97\"/></svg>"
  | Status.incident => "<svg viewBox=\"0 0 20 18\" fill=\"none\" xmlns=\"http://www.w3.org/2000/svg\"><path fill-rule=\"evenodd\" clip-rule=\"evenodd\" d=\"M1.77512 18H10H18.2249C19.4574 18 20.2271 16.665 19.6096 15.5983L11.3847 1.39172C10.7684 0.327268 9.23158 0.327264 8.61532 1.39172L0.390434 15.5983C-0.22711 16.665 0.542584 18 1.77512 18ZM9 6H11V11H9V6ZM11 13H9V15H11V13Z\" fill=\"#F2C661\"/></svg>"
  | Status.outage => "<svg viewBox=\"0 0 20 20\" fill=\"none\" xmlns=\"http://www.w3.org/2000/svg\"><path fill-rule=\"evenodd\" clip-rule=\"evenodd\" d=\"M10 20C15.5228 20 20 15.5228 20 10C20 4.47715 15.5228 0 10 0C4.47715 0 0 4.47715 0 10C0 15.5228 4.47715 20 10 20ZM5.5 9.5V10.5H14.5V9.5H5.5Z\" fill=\"#D83D4E\"/></svg>"

/-- Textual status title for each status value (the TITLES record of mod.ts). -/
def TITLES : Status → String
  | Status.noissue => "All Systems Operational"
  | Status.incident => "Some Systems Are Experiencing Issues"
  | Status.outage => "Service Disruption Ongoing"

/-- Row template of generateServiceRows: chunk before the service name. -/
def rowStart : String :=
  "\n    <div class=\"row\">\n      <div class=\"cell\">\n        <div class=\"service-name\">"

/-- Row template of generateServiceRows: chunk between the service name and
its status title. -/
def rowStatusOpen : String :=
  "</div>\n        <div class=\"status\">"

/-- Row template of generateServiceRows: chunk between the status title and
the status icon. -/
def rowIconOpen : String :=
  "</div>\n      </div>\n      <div class=\"cell\">\n        <div class=\"icon\">"

/-- Row template of generateServiceRows: chunk after the status icon. -/
def rowClose : String :=
  "</div>\n      </div>\n    </div>\n  "

/-- Function generateServiceRows of mod.ts: one rendered row per service, in
input order; the source maps the row template over the list and joins on the
empty separator, which is this concatenation. -/
def generateServiceRows : List Service → String
  | [] => ""
  | service :: rest =>
    rowStart
      ++ service.name
      ++ rowStatusOpen
      ++ TITLES service.status
      ++ rowIconOpen
      ++ ICONS service.status
      ++ rowClose
      ++ generateServiceRows rest

/-- The environment-level icon picked by the renderer: the getIcon closure
inside generateEnvironmentTables. -/
def getIcon (services : List Service) : String :=
  if services.any fun s => s.status == Status.outage then ICONS Status.outage
  else if services.any fun s => s.status == Status.incident then ICONS Status.incident
  else ICONS Status.noissue

/-- The details tag opening the table of the environment at a given position:
the attribute word open is emitted exactly for position 0, from the source
conditional on index. -/
def detailsTag (index : Nat) : String :=
  "\n    <details " ++ (if index == 0 then "open" else "") ++ " class=\"table\">"

/-- Environment table template: chunk between the details tag and the
environment name. -/
def envSummaryOpen : String :=
  "\n      <summary class=\"row\">\n        <div class=\"cell\">"

/-- Environment table template: chunk between the environment name and the
environment-level icon. -/
def envIconCellOpen : String :=
  "</div>\n        <div class=\"cell\">\n          <div class=\"icon\">"

/-- Environment table template: chunk between the environment-level icon and
the service rows. -/
def envIconCellClose : String :=
  "</div>\n        </div>\n      </summary>\n      "

/-- Environment table template: closing chunk after the service rows. -/
def envTableClose : String :=
  "\n    </details>\n  "

/-- Remainder of one environment table after its details tag, rendered around
an explicitly given icon string. -/
def envTableBodyWithIcon (env : Environment) (iconHTML : String) : String :=
  envSummaryOpen
    ++ env.name
    ++ envIconCellOpen
    ++ iconHTML
    ++ envIconCellClose
    ++ generateServiceRows env.services
    ++ envTableClose

/-- Remainder of one environment table after its details tag: summary row with
the environment name and the icon chosen by getIcon, then the service rows. -/
def envTableBody (env : Environment) : String :=
  envTableBodyWithIcon env (getIcon env.services)

/-- One environment table of generateEnvironmentTables: the details tag for
the given position followed by the table body. -/
def envTableSegment (index : Nat) (env : Environment) : String :=
  detailsTag index ++ envTableBody env

/-- The tables of a list of environments starting at a given position index:
the source maps the table template with its running index over the list and
joins on the empty separator. -/
def envTablesFrom (index : Nat) : List Environment → String
  | [] => ""
  | env :: rest => envTableSegment index env ++ envTablesFrom (index + 1) rest

/-- Function generateEnvironmentTables of mod.ts. -/
def generateEnvironmentTables (environments : List Environment) : String :=
  envTablesFrom 0 environments

/-- Document from the doctype through the opening of the title element. -/
def docStart : String :=
  "\n<!DOCTYPE html>\n<html lang=\"en\">\n<head>\n  <meta charset=\"UTF-8\">\n  <meta name=\"viewport\" content=\"width=device-width, initial-scale=1.0\">\n  <title>"

/-- Document from the close of the title element through the style element
opening and every built-in CSS rule, ending just before the custom-styles
comment marker. -/
def headAndBuiltinStyles : String :=
  "</title>\n  <link rel=\"preconnect\" href=\"https://rsms.me/\">\n  <link rel=\"stylesheet\" href=\"https://rsms.me/inter/inter.css\">\n  <style>\n    :root \x7b\n      font-family: Inter, sans-serif;\n      font-feature-settings: \x27liga\x271, \x27calt\x271;\n    \x7d\n\n    @supports (font-variation-settings: normal) \x7b\n      :root \x7b\n        font-family: InterVariable, sans-serif;\n      \x7d\n    \x7d\n\n    body \x7b\n      margin: 0;\n      min-height: 100vh;\n      \n      nav \x7b\n        position: sticky;\n        top: 0;\n        z-index: 10;\n        padding: 1rem;\n        background: white;\n        justify-content: space-between;\n        align-items: center;\n        display: flex;\n        \n        .links \x7b\n          display: flex;\n          font-size: 0.9em;\n          gap: 0.8em;\n          \n          a \x7b\n            text-decoration: none;\n          \x7d\n        \x7d\n      \x7d\n    \x7d\n\n    .header \x7b\n      padding: 3rem 1.6rem;\n      text-align: center;\n      flex-direction: column;\n      justify-content: center;\n      align-items: center;\n      display: flex;\n      \n      .icon \x7b\n        svg \x7b\n          width: 3rem;\n          display: block;\n        \x7d\n      \x7d\n\n      h1 \x7b\n        margin: 2rem 0 1rem;\n        font-size: 1rem;\n        line-height: 1.6;\n        font-weight: 600;\n        max-width: 300px;\n      \x7d\n\n      p \x7b\n        margin: 0;\n        font-size: 0.9em;\n        color: gray;\n      \x7d\n    \x7d\n    \n    .table \x7b\n      margin: auto;\n      font-size: 0.9em;\n      max-width: 840px;\n      flex-direction: column;\n      display: flex;\n      \n      .icon \x7b\n        width: 24px;\n        align-items: center;\n        display: flex;\n      \x7d\n\n      .row \x7b\n        border-bottom: 1px solid rgba(0,0,0,0.1);\n        display: flex;\n\n        .cell \x7b\n          gap: 0.6em;\n          padding: 1rem 1.1rem;\n          flex-direction: unset;\n          align-items: center;\n          display: flex;\n          \n          &:first-child \x7b\n            justify-content: unset;\n            flex-grow: 1;\n          \x7d\n        \x7d\n        &:not(:has(.icon)) \x7b\n          .cell \x7b\n            font-weight: 600;\n          \x7d\n        \x7d\n      \x7d\n    \x7d\n\n    div.table \x7b\n      position: sticky;\n      top: 46px;\n      background: white;\n      z-index: 10;\n\n      .cell:not(:has(.icon)) \x7b\n        font-weight: 600;\n      \x7d\n    \x7d\n\n    details.table \x7b\n      &:last-of-type \x7b\n        padding-bottom: 10rem;\n\n        .row:last-child \x7b\n          border-bottom: 0;\n        \x7d\n      \x7d\n\n      .row \x7b\n        border-bottom: 1px solid rgba(0,0,0,0.1);\n\n        .cell \x7b\n          &:first-child \x7b\n            flex-direction: column;\n            justify-content: center;\n            align-items: unset;\n          \x7d\n\n          &:not(:first-child) \x7b\n            justify-content: flex-end;\n            font-size: 0.9em;\n            color: gray;\n          \x7d\n\n          .status \x7b\n            font-size: 0.9em;\n            font-weight: 400;\n            color: gray;\n          \x7d\n        \x7d\n      \x7d\n\n      summary.row \x7b\n        font-weight: 600;\n        cursor: pointer;\n\n        .cell:first-child \x7b\n          flex-direction: row;\n          justify-content: unset;\n          align-items: center;\n          gap: 1em;\n\n          &::before \x7b\n            content: \x27\x27;\n            width: 6px;\n            height: 6px;\n            border: solid currentColor;\n            border-width: 2px 2px 0 0;\n            transform: rotate(45deg);\n          \x7d\n        \x7d\n      \x7d\n\n      &[open] summary.row .cell:first-child::before \x7b\n        margin-top: -3px;\n        border-width: 0 2px 2px 0;\n      \x7d\n    \x7d\n    "

/-- The comment marker that precedes the caller CSS inside the style block. -/
def customStylesMarker : String :=
  "/* Custom styles */\n    "

/-- The closing style tag. -/
def styleCloseTag : String :=
  "\n  </style>"

/-- Document from after the style block through the logo container opening. -/
def afterStyleToLogo : String :=
  "\n</head>\n<body>\n  <nav>\n    <div class=\"logo\">\n      "

/-- The image wrapper for a non-SVG logo: chunk before the logo URL, opening
the src attribute of the img element. -/
def imgSrcOpen : String :=
  "<img height=\"22px;\" src=\""

/-- The image wrapper for a non-SVG logo: chunk after the logo URL, closing
the src attribute. -/
def imgSrcClose : String :=
  "\" alt=\"Logo\">"

/-- Document from after the logo through the header icon container opening. -/
def afterLogoToHeaderIcon : String :=
  "\n    </div>\n    <div class=\"links\">\n      <a href=\"/\">View issues</a>\n      <a href=\"/\">New issue</a>\n    </div>\n  </nav>\n  <div class=\"header\">\n    <div class=\"icon\">"

/-- Chunk between the header icon and the page heading. -/
def headingOpen : String :=
  "</div>\n    <h1>"

/-- Chunk between the page heading and the timestamp, ending with the word
Today. -/
def todayOpen : String :=
  "</h1>\n    <p>Today - "

/-- Legend block: from after the page heading paragraph to the first legend
icon container. -/
def legendToNoissueIcon : String :=
  "</p>\n  </div>\n  <div class=\"table\">\n    <div class=\"row\">\n      <div class=\"cell\">Current status by service</div>\n      <div class=\"cell\">\n        No issue <div class=\"icon\">"

/-- Legend block between the first and second legend icons. -/
def legendToIncidentIcon : String :=
  "</div>\n      </div>\n      <div class=\"cell\">\n        Incident <div class=\"icon\">"

/-- Legend block between the second and third legend icons. -/
def legendToOutageIcon : String :=
  "</div>\n      </div>\n      <div class=\"cell\">\n        Outage <div class=\"icon\">"

/-- Legend block close, up to the environment tables. -/
def legendClose : String :=
  "</div>\n      </div>\n    </div>\n  </div>\n  "

/-- Closing chunk of the document after the environment tables. -/
def htmlEnd : String :=
  "\n</body>\n</html>"

/-- Function generateHTML of mod.ts, with the ambient clock made an explicit
parameter; each juxtaposition below is one literal chunk or one interpolated
expression of the source template, in source order. -/
def generateHTML (d : ClockReading) (config : StatusPageConfig) : String :=
  docStart
  ++ config.title
  ++ headAndBuiltinStyles
  ++ customStylesMarker
  ++ (config.customCSS.getD "")
  ++ styleCloseTag
  ++ afterStyleToLogo
  ++ (if jsStartsWith config.logo "<svg" then config.logo
      else imgSrcOpen ++ config.logo ++ imgSrcClose)
  ++ afterLogoToHeaderIcon
  ++ ICONS config.currentStatus
  ++ headingOpen
  ++ TITLES config.currentStatus
  ++ todayOpen
  ++ getCurrentTime d
  ++ legendToNoissueIcon
  ++ ICONS Status.noissue
  ++ legendToIncidentIcon
  ++ ICONS Status.incident
  ++ legendToOutageIcon
  ++ ICONS Status.outage
  ++ legendClose
  ++ generateEnvironmentTables config.environments
  ++ htmlEnd

/-- A service row of an environment record as the Gridfox adapter reads it:
the reference-field value that names the service. -/
structure GridfoxServiceRecord where
  referenceFieldValue : String
deriving DecidableEq

/-- An environment record fetched by the Gridfox adapter: its name plus its
service rows. -/
structure GridfoxEnvironmentRecord where
  name : String
  services : List GridfoxServiceRecord
deriving DecidableEq

/-- An open-issue record fetched by the Gridfox adapter: the service
reference it names, the environment name it names, and the remaining raw
fields, inspected only by the caller-supplied classifier. -/
structure GridfoxIssueRecord where
  service : String
  environment : String
  fields : List (String × String)
deriving DecidableEq

/-- Per-service status derivation of configFromGridfox over the issues
already scoped to the service: noissue, overridden to incident when some
scoped issue classifies as incident, then overridden to outage when some
classifies as outage. -/
def deriveServiceStatus (issueStatusType : GridfoxIssueRecord → Status)
    (scopedIssues : List GridfoxIssueRecord) : Status :=
  let incidentIssues := scopedIssues.filter fun i => issueStatusType i == Status.incident
  let outageIssues := scopedIssues.filter fun i => issueStatusType i == Status.outage
  let status := Status.noissue
  let status := if incidentIssues.length ≠ 0 then Status.incident else status
  let status := if outageIssues.length ≠ 0 then Status.outage else status
  status

/-- Page-level status derivation of configFromGridfox: noissue, overridden to
incident when some service of some environment is incident, then overridden
to outage when some is outage. -/
def deriveCurrentStatus (environments : List Environment) : Status :=
  let currentStatus := Status.noissue
  let currentStatus :=
    if environments.any fun e => e.services.any fun s => s.status == Status.incident
    then Status.incident else currentStatus
  let currentStatus :=
    if environments.any fun e => e.services.any fun s => s.status == Status.outage
    then Status.outage else currentStatus
  currentStatus

/-- The pure mapping core of configFromGridfox in gridfox/index.ts, given the
records returned by the two network fetches: one Service per service record,
with the open issues scoped to it by a reference-field match plus
environment-name equality, and the page-level currentStatus computed over the
mapped environments; title and logo are left empty for the caller. -/
def configFromGridfox (issueStatusType : GridfoxIssueRecord → Status)
    (environmentRecords : List GridfoxEnvironmentRecord)
    (issueRecords : List GridfoxIssueRecord) : StatusPageConfig :=
  let environments : List Environment := environmentRecords.map fun env =>
    { name := env.name
      services := env.services.map fun s =>
        let scopedIssues := issueRecords.filter fun issue =>
          issue.service == s.referenceFieldValue && issue.environment == env.name
        { name := s.referenceFieldValue
          status := deriveServiceStatus issueStatusType scopedIssues } }
  let currentStatus := deriveCurrentStatus environments
  { title := "", logo := "", currentStatus := currentStatus, environments := environments }

/-- Concrete clock reading used by the closed statements below: noon at UTC
offset zero. -/
def midday : ClockReading := { hour := 12, minute := 0, timezoneOffset := 0 }

/-- A page whose single Production service reports noissue; the caller-supplied
page-level status is noissue. -/
def ceConfigNoissue : StatusPageConfig :=
  { title := "T", logo := "L", currentStatus := Status.noissue,
    environments := [⟨"Production", [⟨"API", Status.noissue⟩]⟩] }

/-- The same page with its single service flipped to outage; every
caller-supplied name and pre-computed status, including the page-level
currentStatus, is unchanged. -/
def ceConfigOutage : StatusPageConfig :=
  { title := "T", logo := "L", currentStatus := Status.noissue,
    environments := [⟨"Production", [⟨"API", Status.outage⟩]⟩] }

/-- Common prefix shared by the two rendered counterexample pages: everything
up to the environment-level icon slot of the single table. -/
def cePre : String :=
  docStart ++ "T" ++ headAndBuiltinStyles ++ customStylesMarker ++ styleCloseTag
    ++ afterStyleToLogo ++ (imgSrcOpen ++ "L" ++ imgSrcClose) ++ afterLogoToHeaderIcon
    ++ ICONS Status.noissue ++ headingOpen ++ TITLES Status.noissue ++ todayOpen
    ++ getCurrentTime midday ++ legendToNoissueIcon ++ ICONS Status.noissue
    ++ legendToIncidentIcon ++ ICONS Status.incident ++ legendToOutageIcon
    ++ ICONS Status.outage ++ legendClose ++ detailsTag 0 ++ envSummaryOpen
    ++ "Production" ++ envIconCellOpen

/-- Tail of a rendered counterexample page after the environment-level icon,
as a function of the single service status. -/
def ceTail (s : Status) : String :=
  envIconCellClose ++ (rowStart ++ "API" ++ rowStatusOpen ++ TITLES s ++ rowIconOpen
    ++ ICONS s ++ rowClose) ++ envTableClose ++ htmlEnd

/-- A classifier for the adapter scenario: an issue whose raw type field says
Outage maps to outage, one that says Bug maps to incident, all else noissue. -/
def witClassifier : GridfoxIssueRecord → Status := fun issue =>
  if issue.fields.contains ("type", "Outage") then Status.outage
  else if issue.fields.contains ("type", "Bug") then Status.incident
  else Status.noissue

/-- Three environment records for the adapter scenario. -/
def witEnvRecords : List GridfoxEnvironmentRecord :=
  [⟨"Production", [⟨"Web App"⟩, ⟨"API"⟩]⟩,
   ⟨"Staging", [⟨"API"⟩]⟩,
   ⟨"Dev", []⟩]

/-- Two open-issue records for the adapter scenario: one maps to outage and
matches the Production API service by reference field and environment name;
the other names an environment that does not exist. -/
def witIssueRecords : List GridfoxIssueRecord :=
  [⟨"API", "Production", [("type", "Outage")]⟩,
   ⟨"API", "Demo", [("type", "Bug")]⟩]

/-- A page whose title, environment name and service name all carry HTML
markup, for the closed escaping check. -/
def witPage : StatusPageConfig :=
  { title := "<b>T</b>", logo := "logo.png", currentStatus := Status.noissue,
    environments := [⟨"<i>Prod</i>", [⟨"<script>x</script>", Status.noissue⟩]⟩] }

section Lemmas

theorem string_append_empty (s : String) : s ++ "" = s :=
  String.ext (by simp [String.data_append])

theorem string_empty_append (s : String) : "" ++ s = s :=
  String.ext (by simp [String.data_append])

theorem severityMax_nil : severityMax [] = Status.noissue := rfl

theorem severityMax_ub (l : List Status) (s : Status) (h : s ∈ l) :
    severity s ≤ severity (severityMax l) := by
  unfold severityMax
  by_cases h1 : l.any (· == Status.outage) = true
  · simp only [h1, if_true]
    cases s <;> simp [severity]
  · have hs : s ≠ Status.outage := by
      intro heq
      exact h1 (List.any_eq_true.mpr ⟨s, h, by simp [heq]⟩)
    by_cases h2 : l.any (· == Status.incident) = true
    · simp only [h1, h2, if_false, if_true]
      cases s <;> simp_all [severity]
    · have hs2 : s ≠ Status.incident := by
        intro heq
        exact h2 (List.any_eq_true.mpr ⟨s, h, by simp [heq]⟩)
      simp only [h1, h2, if_false]
      cases s <;> simp_all [severity]

theorem severityMax_attained (l : List Status) :
    severityMax l ∈ l ∨ severityMax l = Status.noissue := by
  unfold severityMax
  by_cases h1 : l.any (· == Status.outage) = true
  · obtain ⟨x, hx, hb⟩ := List.any_eq_true.mp h1
    simp only [beq_iff_eq] at hb
    subst hb
    simp only [h1, if_true]
    exact Or.inl hx
  · by_cases h2 : l.any (· == Status.incident) = true
    · obtain ⟨x, hx, hb⟩ := List.any_eq_true.mp h2
      simp only [beq_iff_eq] at hb
      subst hb
      simp only [h1, h2, if_false, if_true]
      exact Or.inl hx
    · simp only [h1, h2, if_false]
      exact Or.inr rfl

theorem filter_length_ne_zero_iff_any {α : Type} (l : List α) (p : α → Bool) :
    (l.filter p).length ≠ 0 ↔ l.any p = true := by
  rw [Ne, List.length_eq_zero, List.filter_eq_nil_iff]
  simp [List.any_eq_true]

theorem list_any_map {α β : Type} (l : List α) (f : α → β) (p : β → Bool) :
    (l.map f).any p = l.any fun x => p (f x) := by
  induction l with
  | nil => rfl
  | cons a l ih => simp [List.any_cons, ih]

theorem deriveServiceStatus_eq (f : GridfoxIssueRecord → Status)
    (issues : List GridfoxIssueRecord) :
    deriveServiceStatus f issues = severityMax (issues.map f) := by
  unfold deriveServiceStatus severityMax
  simp only [list_any_map, filter_length_ne_zero_iff_any]

theorem any_flatten {α : Type} (p : α → Bool) (L : List (List α)) :
    L.flatten.any p = L.any fun l => l.any p := by
  induction L with
  | nil => rfl
  | cons l rest ih => simp [List.any_append, ih]

theorem deriveCurrentStatus_eq (environments : List Environment) :
    deriveCurrentStatus environments
      = severityMax ((environments.map fun e => e.services.map Service.status).flatten) := by
  unfold deriveCurrentStatus severityMax
  simp only [any_flatten, list_any_map]

theorem getIcon_eq (services : List Service) :
    getIcon services = ICONS (severityMax (services.map Service.status)) := by
  unfold getIcon severityMax
  simp only [list_any_map]
  by_cases h1 : services.any (fun s => s.status == Status.outage) = true <;>
    by_cases h2 : services.any (fun s => s.status == Status.incident) = true <;>
      simp [h1, h2]

theorem containsStr_mid (p needle q : String) : ContainsStr (p ++ needle ++ q) needle :=
  ⟨p, q, rfl⟩

theorem containsStr_appendL (p : String) {hay needle : String}
    (h : ContainsStr hay needle) : ContainsStr (p ++ hay) needle := by
  obtain ⟨a, b, rfl⟩ := h
  exact ⟨p ++ a, b, by simp [String.append_assoc]⟩

theorem containsStr_appendR {hay needle : String} (q : String)
    (h : ContainsStr hay needle) : ContainsStr (hay ++ q) needle := by
  obtain ⟨a, b, rfl⟩ := h
  exact ⟨a, b ++ q, by simp [String.append_assoc]⟩

theorem containsStr_trans {a b c : String} (h1 : ContainsStr a b) (h2 : ContainsStr b c) :
    ContainsStr a c := by
  obtain ⟨p, q, rfl⟩ := h1
  obtain ⟨r, s, rfl⟩ := h2
  exact ⟨p ++ r, s ++ q, by simp [String.append_assoc]⟩

theorem envTablesFrom_decomp (envs : List Environment) (i k : Nat) (env : Environment)
    (h : envs.get? i = some env) :
    ∃ pre post, envTablesFrom k envs = pre ++ envTableSegment (k + i) env ++ post := by
  induction envs generalizing i k with
  | nil => simp at h
  | cons e rest ih =>
    cases i with
    | zero =>
      simp only [List.get?_cons_zero, Option.some.injEq] at h
      subst h
      exact ⟨"", envTablesFrom (k + 1) rest, by
        simp [envTablesFrom, string_empty_append]⟩
    | succ j =>
      obtain ⟨pre, post, hp⟩ := ih j (k + 1) (by simpa using h)
      refine ⟨envTableSegment k e ++ pre, post, ?_⟩
      have harith : k + 1 + j = k + (j + 1) := by omega
      rw [harith] at hp
      simp [envTablesFrom, hp, String.append_assoc]

theorem generateServiceRows_contains_name (services : List Service) (svc : Service)
    (h : svc ∈ services) : ContainsStr (generateServiceRows services) svc.name := by
  induction services with
  | nil => simp at h
  | cons s rest ih =>
    rcases List.mem_cons.mp h with rfl | hmem
    · exact ⟨rowStart,
        rowStatusOpen ++ TITLES svc.status ++ rowIconOpen ++ ICONS svc.status ++ rowClose
          ++ generateServiceRows rest,
        by simp [generateServiceRows, String.append_assoc]⟩
    · show ContainsStr
        ((rowStart ++ s.name ++ rowStatusOpen ++ TITLES s.status ++ rowIconOpen
          ++ ICONS s.status ++ rowClose) ++ generateServiceRows rest) svc.name
      exact containsStr_appendL _ (ih hmem)

theorem envTableSegment_contains_icon (i : Nat) (env : Environment) :
    ContainsStr (envTableSegment i env) (getIcon env.services) :=
  ⟨detailsTag i ++ envSummaryOpen ++ env.name ++ envIconCellOpen,
   envIconCellClose ++ generateServiceRows env.services ++ envTableClose,
   by simp [envTableSegment, envTableBody, envTableBodyWithIcon, String.append_assoc]⟩

theorem envTableSegment_contains_name (i : Nat) (env : Environment) :
    ContainsStr (envTableSegment i env) env.name :=
  ⟨detailsTag i ++ envSummaryOpen,
   envIconCellOpen ++ getIcon env.services ++ envIconCellClose
     ++ generateServiceRows env.services ++ envTableClose,
   by simp [envTableSegment, envTableBody, envTableBodyWithIcon, String.append_assoc]⟩

theorem envTableSegment_contains_rows (i : Nat) (env : Environment) :
    ContainsStr (envTableSegment i env) (generateServiceRows env.services) :=
  ⟨detailsTag i ++ envSummaryOpen ++ env.name ++ envIconCellOpen
     ++ getIcon env.services ++ envIconCellClose,
   envTableClose,
   by simp [envTableSegment, envTableBody, envTableBodyWithIcon, String.append_assoc]⟩

theorem generateEnvironmentTables_contains (envs : List Environment) (env : Environment)
    (needle : String) (hmem : env ∈ envs)
    (hseg : ∀ i, ContainsStr (envTableSegment i env) needle) :
    ContainsStr (generateEnvironmentTables envs) needle := by
  obtain ⟨i, hi⟩ := List.get?_of_mem hmem
  obtain ⟨pre, post, hp⟩ := envTablesFrom_decomp envs i 0 env hi
  unfold generateEnvironmentTables
  rw [hp]
  exact containsStr_trans (containsStr_mid pre _ post) (hseg (0 + i))

theorem generateHTML_contains_tables (d : ClockReading) (cfg : StatusPageConfig)
    {needle : String}
    (h : ContainsStr (generateEnvironmentTables cfg.environments) needle) :
    ContainsStr (generateHTML d cfg) needle := by
  unfold generateHTML
  exact containsStr_appendR _ (containsStr_appendL _ h)

theorem ce_logo_not_svg : jsStartsWith "L" "<svg" = false := by decide

end Lemmas

/-- C1: for every environment in the rendered page, the displayed
environment-level status icon is the icon of the severity maximum (by the
order outage > incident > noissue) of its services' statuses; the maximum is
an upper bound of the statuses and is attained unless the service list is
empty, in which case it is noissue. -/
theorem env_displayed_status_is_severity_max (envs : List Environment) (i : Nat)
    (env : Environment) (h : envs.get? i = some env) :
    ContainsStr (generateEnvironmentTables envs) (getIcon env.services)
    ∧ getIcon env.services = ICONS (severityMax (env.services.map Service.status))
    ∧ (∀ s ∈ env.services,
        severity s.status ≤ severity (severityMax (env.services.map Service.status)))
    ∧ (severityMax (env.services.map Service.status) ∈ env.services.map Service.status
        ∨ severityMax (env.services.map Service.status) = Status.noissue)
    ∧ severityMax [] = Status.noissue := by
  refine ⟨?_, getIcon_eq env.services, ?_, severityMax_attained _, rfl⟩
  · obtain ⟨pre, post, hp⟩ := envTablesFrom_decomp envs i 0 env h
    unfold generateEnvironmentTables
    rw [hp]
    exact containsStr_trans (containsStr_mid pre _ post)
      (envTableSegment_contains_icon (0 + i) env)
  · intro s hs
    exact severityMax_ub _ _ (List.mem_map_of_mem Service.status hs)

/-- Witness for C1 at a concrete one-environment page whose service reports
incident. -/
theorem env_displayed_status_is_severity_max_witness :
    ContainsStr (generateEnvironmentTables [⟨"Production", [⟨"API", Status.incident⟩]⟩])
      (getIcon [⟨"API", Status.incident⟩]) :=
  (env_displayed_status_is_severity_max [⟨"Production", [⟨"API", Status.incident⟩]⟩] 0
    ⟨"Production", [⟨"API", Status.incident⟩]⟩ rfl).1

set_option maxRecDepth 8000 in
/-- C2 counterexample: cePre ends with envIconCellOpen, the opening of the
environment-level icon cell, and each ceTail begins with envIconCellClose, so
the middle term below is exactly the icon shown for the Production
environment. The outage page renders the outage icon there although its every
caller-supplied status value is noissue (currentStatus included, third
conjunct), and the noissue page, equal to it in every caller-supplied name
and pre-computed status, shows a different icon in that slot: the displayed
per-environment status is recomputed from the contained services, not taken
from pre-computed values. -/
theorem renderer_env_status_not_precomputed_counterexample :
    generateHTML midday ceConfigOutage
      = cePre ++ ICONS Status.outage ++ ceTail Status.outage
    ∧ generateHTML midday ceConfigNoissue
      = cePre ++ ICONS Status.noissue ++ ceTail Status.noissue
    ∧ ceConfigOutage.currentStatus = Status.noissue
    ∧ ICONS Status.outage ≠ ICONS Status.noissue := by
  refine ⟨?_, ?_, rfl, by decide⟩
  · simp [generateHTML, ceConfigOutage, cePre, ceTail, generateEnvironmentTables,
      envTablesFrom, envTableSegment, envTableBody, envTableBodyWithIcon,
      generateServiceRows, getIcon, ce_logo_not_svg, string_append_empty,
      string_empty_append, String.append_assoc]
  · simp [generateHTML, ceConfigNoissue, cePre, ceTail, generateEnvironmentTables,
      envTablesFrom, envTableSegment, envTableBody, envTableBodyWithIcon,
      generateServiceRows, getIcon, ce_logo_not_svg, string_append_empty,
      string_empty_append, String.append_assoc]

/-- C2 (amended): the renderer does re-derive each environment's displayed
status from the contained services — the rendered table segment equals the
table template instantiated with the icon of the severity maximum recomputed
from the services' statuses; the data model carries no pre-computed
per-environment status for it to read. -/
theorem renderer_recomputes_env_status (i : Nat) (env : Environment) :
    envTableSegment i env
      = detailsTag i
        ++ envTableBodyWithIcon env (ICONS (severityMax (env.services.map Service.status))) := by
  simp only [envTableSegment, envTableBody, getIcon_eq]

/-- C3: the severity-aggregation rule is the same function at every call
site — the adapter's per-service aggregation over mapped issue statuses, the
adapter's page-level aggregation over all services of all environments, and
the renderer's per-environment icon choice all compute the severity maximum,
which is noissue on the empty list, an upper bound, and attained on non-empty
input. -/
theorem aggregation_rule_same_at_all_sites (f : GridfoxIssueRecord → Status)
    (issues : List GridfoxIssueRecord) (services : List Service)
    (environments : List Environment) (l : List Status) :
    deriveServiceStatus f issues = severityMax (issues.map f)
    ∧ deriveCurrentStatus environments
        = severityMax ((environments.map fun e => e.services.map Service.status).flatten)
    ∧ getIcon services = ICONS (severityMax (services.map Service.status))
    ∧ severityMax [] = Status.noissue
    ∧ (∀ s ∈ l, severity s ≤ severity (severityMax l))
    ∧ (severityMax l ∈ l ∨ severityMax l = Status.noissue) :=
  ⟨deriveServiceStatus_eq f issues, deriveCurrentStatus_eq environments,
   getIcon_eq services, rfl, fun s hs => severityMax_ub l s hs, severityMax_attained l⟩

/-- Witness for C3 at concrete inputs. -/
theorem aggregation_rule_same_at_all_sites_witness :
    severity Status.incident
      ≤ severity (severityMax [Status.incident, Status.noissue]) :=
  (aggregation_rule_same_at_all_sites (fun _ => Status.noissue) [] [] []
    [Status.incident, Status.noissue]).2.2.2.2.1 Status.incident (by decide)

/-- C4: the adapter scopes an issue to a service exactly by the filter
predicate (issue service equals the reference-field value and issue
environment equals the environment name); each mapped service's status is the
severity maximum of the classifications of its scoped open issues; the
returned currentStatus is the severity maximum over all services of all
returned environments; and each returned environment's derived status icon is
the severity maximum of its services' statuses. -/
theorem adapter_join_and_aggregation (f : GridfoxIssueRecord → Status)
    (environmentRecords : List GridfoxEnvironmentRecord)
    (issueRecords : List GridfoxIssueRecord) :
    (configFromGridfox f environmentRecords issueRecords).environments
      = environmentRecords.map (fun env =>
          { name := env.name
            services := env.services.map fun s =>
              { name := s.referenceFieldValue
                status := severityMax ((issueRecords.filter fun issue =>
                    issue.service == s.referenceFieldValue
                      && issue.environment == env.name).map f) } })
    ∧ (configFromGridfox f environmentRecords issueRecords).currentStatus
      = severityMax (((configFromGridfox f environmentRecords issueRecords).environments.map
          fun e => e.services.map Service.status).flatten)
    ∧ ∀ env ∈ (configFromGridfox f environmentRecords issueRecords).environments,
        getIcon env.services = ICONS (severityMax (env.services.map Service.status)) := by
  refine ⟨?_, ?_, fun env _ => getIcon_eq env.services⟩
  · simp only [configFromGridfox, deriveServiceStatus_eq]
  · simp only [configFromGridfox]
    exact deriveCurrentStatus_eq _

set_option maxRecDepth 20000 in
/-- Witness for C4 at the spec scenario: three environment records and two
open issues, one classified outage and matching the Production API service by
reference field and environment name; the owning environment carries the
outage-derived icon. -/
theorem adapter_join_and_aggregation_witness :
    getIcon [⟨"Web App", Status.noissue⟩, ⟨"API", Status.outage⟩]
      = ICONS (severityMax ([(⟨"Web App", Status.noissue⟩ : Service),
          ⟨"API", Status.outage⟩].map Service.status)) :=
  (adapter_join_and_aggregation witClassifier witEnvRecords witIssueRecords).2.2
    ⟨"Production", [⟨"Web App", Status.noissue⟩, ⟨"API", Status.outage⟩]⟩
    (by decide)

/-- C5: in the rendered page the table of the environment at position i of
the input sequence opens with a details tag whose open attribute is present
exactly when i is 0; the tag is a function of the position alone, never of
any status value. -/
theorem first_table_starts_expanded (envs : List Environment) (i : Nat)
    (env : Environment) (h : envs.get? i = some env) :
    ∃ pre rest post,
      generateEnvironmentTables envs = pre ++ (detailsTag i ++ rest) ++ post
      ∧ detailsTag i
        = "\n    <details " ++ (if i = 0 then "open" else "") ++ " class=\"table\">" := by
  obtain ⟨pre, post, hp⟩ := envTablesFrom_decomp envs i 0 env h
  refine ⟨pre, envTableBody env, post, ?_, ?_⟩
  · unfold generateEnvironmentTables
    rw [hp]
    simp [envTableSegment]
  · by_cases h0 : i = 0 <;> simp [detailsTag, h0]

/-- Witness for C5 at a concrete two-environment page, at position 1. -/
theorem first_table_starts_expanded_witness :
    ∃ pre rest post,
      generateEnvironmentTables
          [⟨"Production", [⟨"API", Status.outage⟩]⟩, ⟨"Staging", []⟩]
        = pre ++ (detailsTag 1 ++ rest) ++ post
      ∧ detailsTag 1
        = "\n    <details " ++ (if 1 = 0 then "open" else "") ++ " class=\"table\">" :=
  first_table_starts_expanded
    [⟨"Production", [⟨"API", Status.outage⟩]⟩, ⟨"Staging", []⟩] 1
    ⟨"Staging", []⟩ rfl

/-- C6: the rendered document contains, verbatim, the logo string itself when
it starts with the four characters of an svg tag, and otherwise contains the
logo string wrapped inside the src attribute of an img element; the two
wrapper chunks are spelled out in the trailing conjuncts. -/
theorem logo_inlined_or_image (cfg : StatusPageConfig) (d : ClockReading) :
    ContainsStr (generateHTML d cfg)
      (if jsStartsWith cfg.logo "<svg" then cfg.logo
       else imgSrcOpen ++ cfg.logo ++ imgSrcClose)
    ∧ imgSrcOpen = "<img height=\"22px;\" src=\""
    ∧ imgSrcClose = "\" alt=\"Logo\">" := by
  refine ⟨⟨docStart ++ cfg.title ++ headAndBuiltinStyles ++ customStylesMarker
      ++ cfg.customCSS.getD "" ++ styleCloseTag ++ afterStyleToLogo,
    afterLogoToHeaderIcon ++ ICONS cfg.currentStatus ++ headingOpen
      ++ TITLES cfg.currentStatus ++ todayOpen ++ getCurrentTime d
      ++ legendToNoissueIcon ++ ICONS Status.noissue ++ legendToIncidentIcon
      ++ ICONS Status.incident ++ legendToOutageIcon ++ ICONS Status.outage
      ++ legendClose ++ generateEnvironmentTables cfg.environments ++ htmlEnd,
    ?_⟩, rfl, rfl⟩
  simp [generateHTML, String.append_assoc]

/-- C7: the caller CSS appears verbatim and unescaped directly after the
chunk holding every built-in rule and the custom-styles marker, immediately
before the closing style tag; and an absent customCSS renders identically to
an empty one. -/
theorem customCSS_appended_after_builtin (cfg : StatusPageConfig) (d : ClockReading) :
    (∃ post, generateHTML d cfg
        = docStart ++ cfg.title ++ headAndBuiltinStyles ++ customStylesMarker
          ++ cfg.customCSS.getD "" ++ (styleCloseTag ++ post))
    ∧ generateHTML d { cfg with customCSS := none }
        = generateHTML d { cfg with customCSS := some "" } := by
  constructor
  · refine ⟨afterStyleToLogo
      ++ (if jsStartsWith cfg.logo "<svg" then cfg.logo
          else imgSrcOpen ++ cfg.logo ++ imgSrcClose)
      ++ afterLogoToHeaderIcon ++ ICONS cfg.currentStatus ++ headingOpen
      ++ TITLES cfg.currentStatus ++ todayOpen ++ getCurrentTime d
      ++ legendToNoissueIcon ++ ICONS Status.noissue ++ legendToIncidentIcon
      ++ ICONS Status.incident ++ legendToOutageIcon ++ ICONS Status.outage
      ++ legendClose ++ generateEnvironmentTables cfg.environments ++ htmlEnd, ?_⟩
    simp [generateHTML, String.append_assoc]
  · simp [generateHTML]

/-- C8: the rendered page embeds the current wall-clock time after the word
Today, formatted as HH and MM joined by a colon, followed by a label that is
GMT exactly when the UTC offset is zero and the fixed alternate BST for every
non-zero offset. -/
theorem timestamp_format_and_label (d : ClockReading) (cfg : StatusPageConfig) :
    ContainsStr (generateHTML d cfg) (todayOpen ++ getCurrentTime d)
    ∧ getCurrentTime d
        = localeTimeHHMM d ++ " " ++ (if d.timezoneOffset = 0 then "GMT" else "BST")
    ∧ localeTimeHHMM d = pad2 d.hour ++ ":" ++ pad2 d.minute := by
  refine ⟨⟨docStart ++ cfg.title ++ headAndBuiltinStyles ++ customStylesMarker
      ++ cfg.customCSS.getD "" ++ styleCloseTag ++ afterStyleToLogo
      ++ (if jsStartsWith cfg.logo "<svg" then cfg.logo
          else imgSrcOpen ++ cfg.logo ++ imgSrcClose)
      ++ afterLogoToHeaderIcon ++ ICONS cfg.currentStatus ++ headingOpen
      ++ TITLES cfg.currentStatus,
    legendToNoissueIcon ++ ICONS Status.noissue ++ legendToIncidentIcon
      ++ ICONS Status.incident ++ legendToOutageIcon ++ ICONS Status.outage
      ++ legendClose ++ generateEnvironmentTables cfg.environments ++ htmlEnd,
    ?_⟩, ?_, rfl⟩
  · simp [generateHTML, String.append_assoc]
  · by_cases h : d.timezoneOffset = 0 <;> simp [getCurrentTime, beq_iff_eq, h]

/-- C9: rendering is a pure function of the configuration and the clock — for
one configuration and two clock readings the outputs share one prefix and one
suffix, both independent of the clock, around the embedded current-time
string; with the same reading the outputs are identical. -/
theorem render_pure_up_to_timestamp (cfg : StatusPageConfig) (d1 d2 : ClockReading) :
    ∃ pre post,
      generateHTML d1 cfg = pre ++ getCurrentTime d1 ++ post
      ∧ generateHTML d2 cfg = pre ++ getCurrentTime d2 ++ post := by
  refine ⟨docStart ++ cfg.title ++ headAndBuiltinStyles ++ customStylesMarker
      ++ cfg.customCSS.getD "" ++ styleCloseTag ++ afterStyleToLogo
      ++ (if jsStartsWith cfg.logo "<svg" then cfg.logo
          else imgSrcOpen ++ cfg.logo ++ imgSrcClose)
      ++ afterLogoToHeaderIcon ++ ICONS cfg.currentStatus ++ headingOpen
      ++ TITLES cfg.currentStatus ++ todayOpen,
    legendToNoissueIcon ++ ICONS Status.noissue ++ legendToIncidentIcon
      ++ ICONS Status.incident ++ legendToOutageIcon ++ ICONS Status.outage
      ++ legendClose ++ generateEnvironmentTables cfg.environments ++ htmlEnd,
    ?_, ?_⟩
  · simp [generateHTML, String.append_assoc]
  · simp [generateHTML, String.append_assoc]

/-- C10: no configuration string is escaped — the title, every environment
name and every service name appear character for character in the rendered
document. -/
theorem config_strings_unescaped (cfg : StatusPageConfig) (d : ClockReading) :
    ContainsStr (generateHTML d cfg) cfg.title
    ∧ ∀ env ∈ cfg.environments,
        ContainsStr (generateHTML d cfg) env.name
        ∧ ∀ svc ∈ env.services, ContainsStr (generateHTML d cfg) svc.name := by
  constructor
  · exact ⟨docStart, headAndBuiltinStyles ++ customStylesMarker
      ++ cfg.customCSS.getD "" ++ styleCloseTag ++ afterStyleToLogo
      ++ (if jsStartsWith cfg.logo "<svg" then cfg.logo
          else imgSrcOpen ++ cfg.logo ++ imgSrcClose)
      ++ afterLogoToHeaderIcon ++ ICONS cfg.currentStatus ++ headingOpen
      ++ TITLES cfg.currentStatus ++ todayOpen ++ getCurrentTime d
      ++ legendToNoissueIcon ++ ICONS Status.noissue ++ legendToIncidentIcon
      ++ ICONS Status.incident ++ legendToOutageIcon ++ ICONS Status.outage
      ++ legendClose ++ generateEnvironmentTables cfg.environments ++ htmlEnd,
      by simp [generateHTML, String.append_assoc]⟩
  · intro env hmem
    constructor
    · exact generateHTML_contains_tables d cfg
        (generateEnvironmentTables_contains cfg.environments env env.name hmem
          (fun i => envTableSegment_contains_name i env))
    · intro svc hsvc
      exact generateHTML_contains_tables d cfg
        (containsStr_trans
          (generateEnvironmentTables_contains cfg.environments env
            (generateServiceRows env.services) hmem
            (fun i => envTableSegment_contains_rows i env))
          (generateServiceRows_contains_name env.services svc hsvc))

/-- Witness for C10 at a concrete page whose title, environment name and
service name carry live HTML markup. -/
theorem config_strings_unescaped_witness :
    ContainsStr (generateHTML midday witPage) "<b>T</b>"
    ∧ ContainsStr (generateHTML midday witPage) "<i>Prod</i>"
    ∧ ContainsStr (generateHTML midday witPage) "<script>x</script>" := by
  have h := config_strings_unescaped witPage midday
  have h2 := h.2 ⟨"<i>Prod</i>", [⟨"<script>x</script>", Status.noissue⟩]⟩
    (by simp [witPage])
  exact ⟨h.1, h2.1, h2.2 ⟨"<script>x</script>", Status.noissue⟩ (by simp)⟩
